import Mathlib

/-!
Verification of the OrcaFlex offset-control script (`ControlScript-v1.py`).

The script's `OffsetControl` class implements a rate-limited target tracker
driven once per simulation time step.  The per-step position update
(`Calculate`, lines 104-116), the initialisation of each role
(`Initialise`, lines 17-67) and the GUI teardown (`Finalise`, lines
120-121) are embedded below over exact rational arithmetic.
-/

namespace OffsetControl

/-- The two control object names hard-coded in `Initialise`
(lines 27-28 of the source). -/
def OffsetMaster : String := "ShaftOffset-Controlled"

def SupportMaster : String := "MoveSupport-Controlled"

/-- `numpy.sign` as used on line 106: `1` for positive, `-1` for negative,
`0` for zero. -/
def npSign (x : ℚ) : ℚ :=
  if 0 < x then 1 else if x < 0 then -1 else 0

/-- The position update computed by `Calculate` (source lines 104-113) once
the guards have passed: `error = current - target`, `dir = sign error`;
if `|error| > maxStepDelta` move one rate-limited step toward the target,
otherwise the support role holds its position while any other role returns
`current - error * dir`. -/
def advance (current target maxStepDelta : ℚ) (name : String) : ℚ :=
  let error := current - target
  let dir := npSign error
  if maxStepDelta < |error| then
    current - maxStepDelta * dir
  else
    if name = SupportMaster then current
    else current - error * dir

/-- One tracking step with a fixed target and rate cap, as a function of the
position only. -/
def advanceStep (target maxStepDelta : ℚ) (name : String) (c : ℚ) : ℚ :=
  advance c target maxStepDelta name

/-- `n` successive invocations of `Calculate` with a constant target. -/
def advanceIter (target maxStepDelta : ℚ) (name : String) (n : ℕ) (c : ℚ) : ℚ :=
  (advanceStep target maxStepDelta name)^[n] c

/-- `self.StartTime = 1` (source line 23): simulated time before which the
tracker leaves the position untouched. -/
def StartTime : ℚ := 1

/-- The whole of `Calculate` (source lines 70-116) as a function from the
per-step inputs to the new value of `info.StructValue.Position[0]`.
The GUI poll (lines 77-88) only writes the workspace; the position is
determined by the workspace value read back on lines 91-96 (scaled by
1/1000 for the offset master), the early-return guards on lines 73 and 99,
and the update on lines 104-116. -/
def Calculate (name : String) (newTimeStep : Bool) (simulationTime : ℚ)
    (workspaceValue : ℚ) (rateStep : ℚ) (position : ℚ) : ℚ :=
  let targetOffset := if name = OffsetMaster then workspaceValue / 1000
    else workspaceValue
  if newTimeStep = false then position
  else if simulationTime < StartTime then position
  else advance position targetOffset rateStep name

/-- Per-role settings computed by `Initialise` (source lines 38-53). -/
structure RoleConfig where
  rateMax : ℚ
  rateStep : ℚ
  maxOffset : ℚ
  targetOffset : ℚ
deriving DecidableEq, Repr

/-- Errors an initialisation could raise.  `Initialise` in the source
contains no `raise` statement, so no execution path produces one. -/
inductive InitError where
  | invalidConfiguration
deriving DecidableEq, Repr

/-- `Initialise` (source lines 17-67): the two recognised names each get
their hard-coded rate settings (`RateMaxList = [0.02, 0.30]`,
`ScaleMax = [150, 3.0]`, offsets scaled to metres for the offset master);
any other name matches neither `if` and leaves the role unconfigured,
without raising. -/
def Initialise (name : String) (timeStep : ℚ) : Except InitError (Option RoleConfig) :=
  if name = OffsetMaster then
    Except.ok (some ⟨1/50, 1/50 * timeStep, 150/1000, 0⟩)
  else
    if name = SupportMaster then
      Except.ok (some ⟨3/10, 3/10 * timeStep, 3, 0⟩)
    else
      Except.ok none

/-- The GUI window held by `self.window`: only whether it has been closed
matters here. -/
structure WindowState where
  closed : Bool
deriving DecidableEq, Repr

/-- `window.close()`: closes the window; PySimpleGUI's close is safe on an
already-closed window. -/
def closeWindow (_w : WindowState) : WindowState := ⟨true⟩

/-- Errors the Python runtime can raise in `Finalise`. -/
inductive PyError where
  | attributeError
deriving DecidableEq, Repr

/-- `Finalise` (source lines 120-121) evaluates `self.window.close()`.
`self.window` is only ever assigned for the offset master (line 67), so an
instance whose interface was never opened has no `window` attribute and
the access raises `AttributeError`. -/
def Finalise (window : Option WindowState) : Except PyError (Option WindowState) :=
  match window with
  | none => Except.error PyError.attributeError
  | some w => Except.ok (some (closeWindow w))

/- ### Helper lemmas about the rate limiter -/

lemma mul_npSign_self (x : ℚ) : x * npSign x = |x| := by
  unfold npSign
  rcases lt_trichotomy x 0 with h | h | h
  · rw [if_neg (by linarith), if_pos h, abs_of_neg h]; ring
  · simp [h]
  · rw [if_pos h, abs_of_pos h]; ring

lemma npSign_of_pos {x : ℚ} (h : 0 < x) : npSign x = 1 := by
  unfold npSign
  rw [if_pos h]

lemma npSign_of_neg {x : ℚ} (h : x < 0) : npSign x = -1 := by
  unfold npSign
  rw [if_neg (by linarith), if_pos h]

lemma abs_npSign_le_one (x : ℚ) : |npSign x| ≤ 1 := by
  unfold npSign
  rcases lt_trichotomy x 0 with h | h | h
  · rw [if_neg (by linarith), if_pos h]; norm_num
  · simp [h]
  · rw [if_pos h]; norm_num

/-- On an approach step (`|error| > maxStepDelta`) the new error is the old
error shortened by `maxStepDelta` in the direction of its sign, for every
role name. -/
lemma advance_far (c t d : ℚ) (name : String) (h : d < |c - t|) :
    advance c t d name = c - d * npSign (c - t) := by
  unfold advance
  rw [if_pos h]

/-- On an approach step the distance to the target shrinks by exactly
`maxStepDelta`. -/
lemma advance_far_abs (c t d : ℚ) (name : String) (hd : 0 ≤ d)
    (h : d < |c - t|) : |advance c t d name - t| = |c - t| - d := by
  rw [advance_far c t d name h]
  unfold npSign
  rcases lt_trichotomy (c - t) 0 with hc | hc | hc
  · rw [if_neg (by linarith), if_pos hc]
    rw [abs_of_neg hc] at h ⊢
    rw [abs_of_neg (by linarith)]
    ring
  · rw [abs_of_nonneg (le_of_eq hc.symm)] at h; linarith
  · rw [if_pos hc]
    rw [abs_of_pos hc] at h ⊢
    rw [abs_of_pos (by linarith)]
    ring

/-- On an approach step the position stays strictly on the same side of the
target. -/
lemma advance_far_same_side (c t d : ℚ) (name : String) (hd : 0 ≤ d)
    (h : d < |c - t|) : 0 < (advance c t d name - t) * (c - t) := by
  rw [advance_far c t d name h]
  unfold npSign
  rcases lt_trichotomy (c - t) 0 with hc | hc | hc
  · rw [if_neg (by linarith), if_pos hc]
    rw [abs_of_neg hc] at h
    have h1 : c - d * (-1) - t < 0 := by linarith
    exact mul_pos_of_neg_of_neg h1 hc
  · rw [abs_of_nonneg (le_of_eq hc.symm)] at h; linarith
  · rw [if_pos hc]
    rw [abs_of_pos hc] at h
    have h1 : 0 < c - d * 1 - t := by linarith
    exact mul_pos h1 hc

/-- Within one step of the target (`|error| ≤ maxStepDelta`), every role
other than the support master returns `current - |error|`: the code's
`current - error * dir` with `error * sign error = |error|`. -/
lemma advance_within_snap (c t d : ℚ) (h : |c - t| ≤ d) (name : String)
    (hn : name ≠ SupportMaster) : advance c t d name = c - |c - t| := by
  unfold advance
  rw [if_neg (not_lt.mpr h), if_neg hn, mul_npSign_self]

/-- Iterating from any position within `d * n + d` of the target reaches a
position within `d` of the target in at most `n` steps. -/
lemma advanceIter_reaches (t d : ℚ) (name : String) (hd : 0 < d) :
    ∀ (n : ℕ) (c : ℚ), |c - t| ≤ d * n + d →
      ∃ k ≤ n, |advanceIter t d name k c - t| ≤ d := by
  intro n
  induction n with
  | zero =>
    intro c hc
    refine ⟨0, le_refl 0, ?_⟩
    simpa [advanceIter, Function.iterate_zero] using by simpa using hc
  | succ n ih =>
    intro c hc
    by_cases hnear : |c - t| ≤ d
    · exact ⟨0, Nat.zero_le _, by simpa [advanceIter] using hnear⟩
    · push_neg at hnear
      have hstep : |advance c t d name - t| = |c - t| - d :=
        advance_far_abs c t d name (le_of_lt hd) hnear
      have hbound : |advance c t d name - t| ≤ d * n + d := by
        rw [hstep]
        push_cast at hc
        linarith
      obtain ⟨k, hk, hkle⟩ := ih (advance c t d name) hbound
      refine ⟨k + 1, Nat.succ_le_succ hk, ?_⟩
      have : advanceIter t d name (k + 1) c
          = advanceIter t d name k (advance c t d name) := by
        unfold advanceIter
        rw [Function.iterate_succ_apply]
        rfl
      rw [this]
      exact hkle

/-- Unfolding one application of the iterated tracker at the back. -/
lemma advanceIter_succ (t d : ℚ) (name : String) (n : ℕ) (c : ℚ) :
    advanceIter t d name (n + 1) c
      = advanceStep t d name (advanceIter t d name n c) := by
  unfold advanceIter
  rw [Function.iterate_succ_apply']

/- ### The spec's worked example, `target = 0.050`, `maxStepDelta = 0.0004` -/

/-- Starting from `0`, each of the first 124 invocations takes a full
rate-limited step of `1/2500` upward. -/
lemma advanceIter_example_up :
    ∀ k : ℕ, k ≤ 124 →
      advanceIter (1/20) (1/2500) OffsetMaster k 0 = k / 2500 := by
  intro k
  induction k with
  | zero =>
    intro _
    simp [advanceIter]
  | succ m ih =>
    intro hm
    have hm' : m ≤ 124 := by omega
    have hmq : (m : ℚ) ≤ 123 := by
      have : m ≤ 123 := by omega
      exact_mod_cast this
    rw [advanceIter_succ, ih hm']
    unfold advanceStep
    have hdiff : (m : ℚ) / 2500 - 1/20 = ((m : ℚ) - 125) / 2500 := by ring
    have hneg : ((m : ℚ) - 125) / 2500 < 0 :=
      div_neg_of_neg_of_pos (by linarith) (by norm_num)
    have hfar : (1:ℚ)/2500 < |(m : ℚ) / 2500 - 1/20| := by
      rw [hdiff, abs_of_neg hneg]
      linarith
    rw [advance_far _ _ _ _ hfar, hdiff, npSign_of_neg hneg]
    push_cast
    ring

/-- At `0.0496` the error is exactly one step, so the snap branch runs and
moves the position away from the target, down to `0.0492`. -/
lemma advanceStep_example_within :
    advanceStep (1/20) (1/2500) OffsetMaster (124/2500) = 123/2500 := by
  unfold advanceStep
  have h0 : (124:ℚ)/2500 - 1/20 = -(1/2500) := by norm_num
  have habs : |(124:ℚ)/2500 - 1/20| = 1/2500 := by
    rw [h0, abs_neg, abs_of_pos (by norm_num : (0:ℚ) < 1/2500)]
  rw [advance_within_snap _ _ _ (le_of_eq habs) _ (by decide), habs]
  norm_num

/-- At `0.0492` the error exceeds one step, so the tracker steps back up to
`0.0496`. -/
lemma advanceStep_example_far :
    advanceStep (1/20) (1/2500) OffsetMaster (123/2500) = 124/2500 := by
  unfold advanceStep
  have h0 : (123:ℚ)/2500 - 1/20 = -(2/2500) := by norm_num
  have hfar : (1:ℚ)/2500 < |(123:ℚ)/2500 - 1/20| := by
    rw [h0, abs_neg, abs_of_pos (by norm_num : (0:ℚ) < 2/2500)]
    norm_num
  rw [advance_far _ _ _ _ hfar, npSign_of_neg (by rw [h0]; norm_num)]
  norm_num

lemma advanceIter_example_124 :
    advanceIter (1/20) (1/2500) OffsetMaster 124 0 = 124/2500 := by
  rw [advanceIter_example_up 124 le_rfl]
  norm_num

lemma advanceIter_example_125 :
    advanceIter (1/20) (1/2500) OffsetMaster 125 0 = 123/2500 := by
  rw [show (125:ℕ) = 124 + 1 from rfl, advanceIter_succ,
    advanceIter_example_124, advanceStep_example_within]

end OffsetControl

namespace OffsetControl

/- ### Claim theorems -/

/-- C2: for every current, target, `maxStepDelta ≥ 0` and every role name,
one invocation of the tracker changes the position by at most
`maxStepDelta`. -/
theorem C2_rate_bound (c t d : ℚ) (name : String) (hd : 0 ≤ d) :
    |advance c t d name - c| ≤ d := by
  unfold advance
  by_cases h : d < |c - t|
  · rw [if_pos h]
    have h1 : c - d * npSign (c - t) - c = -(d * npSign (c - t)) := by ring
    rw [h1, abs_neg, abs_mul, abs_of_nonneg hd]
    calc d * |npSign (c - t)| ≤ d * 1 :=
          mul_le_mul_of_nonneg_left (abs_npSign_le_one _) hd
      _ = d := mul_one d
  · rw [if_neg h]
    push_neg at h
    by_cases hn : name = SupportMaster
    · rw [if_pos hn]
      simpa using hd
    · rw [if_neg hn]
      have h1 : c - (c - t) * npSign (c - t) - c = -((c - t) * npSign (c - t)) := by
        ring
      rw [h1, abs_neg, mul_npSign_self, abs_abs]
      exact h

/-- C2 witness: the bound at `current = 5`, `target = 0`,
`maxStepDelta = 2`, offset-master role. -/
theorem C2_rate_bound_witness :
    |advance 5 0 2 OffsetMaster - 5| ≤ 2 :=
  C2_rate_bound 5 0 2 OffsetMaster (by norm_num)

/-- C5: whenever `|current - target| > maxStepDelta`, the tracker returns
exactly `current - maxStepDelta * sign (current - target)`, for every role
name. -/
theorem C5_far_step (c t d : ℚ) (name : String) (h : d < |c - t|) :
    advance c t d name = c - d * npSign (c - t) :=
  advance_far c t d name h

/-- C5 witness: `current = 5`, `target = 0`, `maxStepDelta = 1`,
support-master role: the step moves down by exactly 1. -/
theorem C5_far_step_witness :
    advance 5 0 1 SupportMaster = 5 - 1 * npSign (5 - 0) :=
  C5_far_step 5 0 1 SupportMaster (by rw [abs_of_pos] <;> norm_num)

/-- C6: within one step of the target (`|current - target| ≤ maxStepDelta`)
the support role holds its current position unchanged. -/
theorem C6_hold (c t d : ℚ) (h : |c - t| ≤ d) :
    advance c t d SupportMaster = c := by
  unfold advance
  rw [if_neg (not_lt.mpr h), if_pos rfl]

/-- C6 witness: the spec's example `current = 1.5`, `target = 1.5005`,
`maxStepDelta = 0.006` returns `1.5` unchanged. -/
theorem C6_hold_witness :
    advance (3/2) (3001/2000) (3/500) SupportMaster = 3/2 :=
  C6_hold (3/2) (3001/2000) (3/500) (by
    rw [show (3:ℚ)/2 - 3001/2000 = -(1/2000) by norm_num, abs_neg,
      abs_of_pos] <;> norm_num)

/-- C1 counterexample: within range (`|0 - 1| ≤ 1`) the snap role does not
return the target: at `current = 0`, `target = 1`, `maxStepDelta = 1` the
result is `-1`, not `1`. -/
theorem C1_counterexample : advance 0 1 1 OffsetMaster ≠ 1 := by
  have h : |(0:ℚ) - 1| ≤ 1 := by
    rw [show (0:ℚ) - 1 = -1 by norm_num, abs_neg, abs_one]
  rw [advance_within_snap 0 1 1 h OffsetMaster (by decide),
    show (0:ℚ) - 1 = -1 by norm_num, abs_neg, abs_one]
  norm_num

/-- C1 amended: within range the snap role returns
`current - error * sign error = current - |error|`, which equals the target
exactly when `current ≥ target` (and only then). -/
theorem C1_snap_corrected (c t d : ℚ) (h : |c - t| ≤ d) :
    advance c t d OffsetMaster = c - |c - t| ∧
      (t ≤ c → advance c t d OffsetMaster = t) := by
  have hsnap := advance_within_snap c t d h OffsetMaster (by decide)
  refine ⟨hsnap, ?_⟩
  intro htc
  rw [hsnap, abs_of_nonneg (by linarith : (0:ℚ) ≤ c - t)]
  ring

/-- C1 amended witness: `current = 2`, `target = 1`, `maxStepDelta = 3`:
within range and above the target, the tracker snaps to `1`. -/
theorem C1_snap_corrected_witness :
    advance 2 1 3 OffsetMaster = 2 - |2 - 1| ∧
      ((1:ℚ) ≤ 2 → advance 2 1 3 OffsetMaster = 1) :=
  C1_snap_corrected 2 1 3 (by
    rw [show (2:ℚ) - 1 = 1 by norm_num, abs_one]; norm_num)

/-- C3 counterexample: 125 invocations from `0` with target `0.050` and
step `0.0004` do not reach `0.050`. -/
theorem C3_counterexample :
    advanceIter (1/20) (1/2500) OffsetMaster 125 0 ≠ 1/20 := by
  rw [advanceIter_example_125]
  norm_num

/-- C3 amended: one call returns `0.0004`; after 124 calls the position is
`0.0496`; the 125th call runs the snap branch and moves away to `0.0492`;
thereafter the position oscillates between `0.0492` and `0.0496` forever
and never equals `0.050`. -/
theorem C3_example_corrected :
    advance 0 (1/20) (1/2500) OffsetMaster = 1/2500 ∧
    advanceIter (1/20) (1/2500) OffsetMaster 124 0 = 124/2500 ∧
    advanceIter (1/20) (1/2500) OffsetMaster 125 0 = 123/2500 ∧
    ∀ n : ℕ,
      advanceIter (1/20) (1/2500) OffsetMaster (125 + 2 * n) 0 = 123/2500 ∧
      advanceIter (1/20) (1/2500) OffsetMaster (126 + 2 * n) 0 = 124/2500 := by
  refine ⟨?_, advanceIter_example_124, advanceIter_example_125, ?_⟩
  · have h0 : (0:ℚ) - 1/20 = -(1/20) := by norm_num
    have hfar : (1:ℚ)/2500 < |(0:ℚ) - 1/20| := by
      rw [h0, abs_neg, abs_of_pos (by norm_num : (0:ℚ) < 1/20)]
      norm_num
    rw [advance_far _ _ _ _ hfar, npSign_of_neg (by rw [h0]; norm_num)]
    norm_num
  · intro n
    induction n with
    | zero =>
      refine ⟨by simpa using advanceIter_example_125, ?_⟩
      rw [show 126 + 2 * 0 = 125 + 1 from rfl, advanceIter_succ,
        advanceIter_example_125, advanceStep_example_far]
    | succ m ih =>
      have hA : advanceIter (1/20) (1/2500) OffsetMaster (125 + 2 * (m + 1)) 0
          = 123/2500 := by
        rw [show 125 + 2 * (m + 1) = (126 + 2 * m) + 1 by ring,
          advanceIter_succ, ih.2, advanceStep_example_within]
      refine ⟨hA, ?_⟩
      rw [show 126 + 2 * (m + 1) = (125 + 2 * (m + 1)) + 1 by ring,
        advanceIter_succ, hA, advanceStep_example_far]

/-- C4: for any start, any fixed target, any `maxStepDelta > 0` and any
role, the iterated tracker is within one step of the target after at most
`⌈|current - target| / maxStepDelta⌉` invocations, and every
approach-branch step keeps the position strictly on the same side of the
target (no overshoot). -/
theorem C4_convergence (c t d : ℚ) (name : String) (hd : 0 < d) :
    (∃ k, k ≤ (⌈|c - t| / d⌉).toNat ∧
      |advanceIter t d name k c - t| ≤ d) ∧
    (∀ k : ℕ, d < |advanceIter t d name k c - t| →
      0 < (advanceIter t d name (k + 1) c - t)
        * (advanceIter t d name k c - t)) := by
  constructor
  · have hq : 0 ≤ |c - t| / d := div_nonneg (abs_nonneg _) hd.le
    have hceil : (0:ℤ) ≤ ⌈|c - t| / d⌉ := Int.ceil_nonneg hq
    have h1 : |c - t| / d ≤ ((⌈|c - t| / d⌉).toNat : ℚ) := by
      have h2 : |c - t| / d ≤ (⌈|c - t| / d⌉ : ℚ) := Int.le_ceil _
      have h3 : ((⌈|c - t| / d⌉).toNat : ℤ) = ⌈|c - t| / d⌉ :=
        Int.toNat_of_nonneg hceil
      calc |c - t| / d ≤ (⌈|c - t| / d⌉ : ℚ) := h2
        _ = ((⌈|c - t| / d⌉).toNat : ℚ) := by exact_mod_cast h3.symm
    have h4 : |c - t| ≤ d * ((⌈|c - t| / d⌉).toNat : ℚ) := by
      rw [div_le_iff₀ hd] at h1
      linarith
    exact advanceIter_reaches t d name hd _ c (by linarith)
  · intro k hk
    rw [advanceIter_succ]
    exact advance_far_same_side _ t d name hd.le hk

/-- C4 witness: `current = 3`, `target = 0`, `maxStepDelta = 1`,
offset-master role. -/
theorem C4_convergence_witness :
    (∃ k, k ≤ (⌈|(3:ℚ) - 0| / 1⌉).toNat ∧
      |advanceIter 0 1 OffsetMaster k 3 - 0| ≤ 1) ∧
    (∀ k : ℕ, 1 < |advanceIter 0 1 OffsetMaster k 3 - 0| →
      0 < (advanceIter 0 1 OffsetMaster (k + 1) 3 - 0)
        * (advanceIter 0 1 OffsetMaster k 3 - 0)) :=
  C4_convergence 3 0 1 OffsetMaster (by norm_num)

/-- C7: within one step of the target, the snap role moves away when below
the target — it returns `2*current - target`, strictly less than `current`
and not equal to the target — and returns the target exactly when at or
above it. -/
theorem C7_within_below_moves_away (c t d : ℚ) (h : |c - t| ≤ d) :
    (c < t → advance c t d OffsetMaster = 2 * c - t ∧
      advance c t d OffsetMaster < c ∧ advance c t d OffsetMaster ≠ t) ∧
    (t ≤ c → advance c t d OffsetMaster = t) := by
  have hsnap := advance_within_snap c t d h OffsetMaster (by decide)
  constructor
  · intro hct
    have habs : |c - t| = t - c := by
      rw [abs_of_neg (by linarith : c - t < 0)]
      ring
    rw [hsnap, habs]
    refine ⟨by ring, by linarith, ?_⟩
    intro heq
    have h2 : c - (t - c) = t := heq
    linarith
  · intro htc
    rw [hsnap, abs_of_nonneg (by linarith : (0:ℚ) ≤ c - t)]
    ring

/-- C7 witness: `current = 0`, `target = 0.5`, `maxStepDelta = 1`: within
range and below the target, the snap role returns `2*0 - 0.5 = -0.5`. -/
theorem C7_within_below_moves_away_witness :
    advance 0 (1/2) 1 OffsetMaster = 2 * 0 - 1/2 :=
  ((C7_within_below_moves_away 0 (1/2) 1 (by
    rw [show (0:ℚ) - 1/2 = -(1/2) by norm_num, abs_neg,
      abs_of_pos (by norm_num : (0:ℚ) < 1/2)]
    norm_num)).1 (by norm_num)).1

/-- C8 counterexample: an unrecognised role name does not raise at
initialisation — `Initialise` completes, returning no configuration. -/
theorem C8_counterexample :
    Initialise "SomeOtherRole" (1/50) = Except.ok none := by
  unfold Initialise
  rw [if_neg (by decide), if_neg (by decide)]

/-- C8 amended: `Initialise` performs no validation at all — for every role
name matching neither hard-coded control object name it returns normally
with the role left unconfigured, raising nothing; the rates are hard-coded
positive constants, so no configured-rate check exists either. -/
theorem C8_no_validation (name : String) (ts : ℚ)
    (h1 : name ≠ OffsetMaster) (h2 : name ≠ SupportMaster) :
    Initialise name ts = Except.ok none := by
  unfold Initialise
  rw [if_neg h1, if_neg h2]

/-- C8 amended witness: the unrecognised name `"UnknownRole"`. -/
theorem C8_no_validation_witness :
    Initialise "UnknownRole" (1/50) = Except.ok none :=
  C8_no_validation "UnknownRole" (1/50) (by decide) (by decide)

/-- C9 counterexample: finalising an instance whose interface was never
opened (no `window` attribute, as for the support role) raises
`AttributeError` instead of succeeding. -/
theorem C9_counterexample :
    Finalise none = Except.error PyError.attributeError := rfl

/-- C9 amended: when a window was opened, `Finalise` closes it and is safe
on an already-closed window; but an instance that never opened the
interface raises `AttributeError` (see the counterexample). -/
theorem C9_close_when_opened :
    ∀ w : WindowState, Finalise (some w) = Except.ok (some ⟨true⟩) := by
  intro w
  rfl

/-- C10: on a new time step before the activation time
(`simulationTime < StartTime`), `Calculate` leaves the position unchanged
whatever the workspace target value is. -/
theorem C10_before_start (name : String) (simTime workVal rateStep pos : ℚ)
    (h : simTime < StartTime) :
    Calculate name true simTime workVal rateStep pos = pos := by
  unfold Calculate
  rw [if_neg (by simp), if_pos h]

/-- C10 witness: at `simulationTime = 0.5 < 1`, the position `7` is
returned untouched even with a large workspace target. -/
theorem C10_before_start_witness :
    Calculate OffsetMaster true (1/2) 30 (1/2500) 7 = 7 :=
  C10_before_start OffsetMaster (1/2) 30 (1/2500) 7 (by norm_num [StartTime])

end OffsetControl
